import Mathlib

/-!
Verification of the DESI spectrum service (`src/backend/main.py`) against its
natural-language specification.

The embedding below translates the two request handlers
`get_coadd_spectrum_json` and `get_coadd_spectrum_csv`, the normalisation
helpers `row2dict` and `rec2dict`, and the astropy/numpy primitives they use
(`Table.loc`, `fits.getdata`, `fits.open`, `np.argwhere`) into pure Lean
functions.  Python exceptions become an explicit `PyError` value threaded
through `Except`; the two `except` clauses of each handler become a dispatch
function from `Except PyError _` to an HTTP `Outcome`.

Numeric payloads of spectral arrays are modelled as `Int` (opaque numeric
content: no claim computes with flux values).  IEEE-754 float cells carry a
bit-pattern `Nat`; no floating-point arithmetic occurs in the verified code
paths.  The source computes the directory bucket as `int(pixnum / 100)`
(true division then truncation); for the non-negative HEALPix domain
(below ~9·10^15, and in practice below 10^5) this coincides with natural
floor division, which is how it is modelled.
-/

namespace DesiApp

/-- A plain Python number produced by `ndarray.tolist()`. -/
inductive PyNum where
  | int (n : Int)
  | float (bits : Nat)
deriving DecidableEq, Repr

/-- A cell value as surfaced by astropy / numpy before normalisation.
The scalar constructors mirror the numpy scalar types that the `isinstance`
cascades in `row2dict` / `rec2dict` test for; `uint64` and `str` are numpy
value kinds that fall through to the final `else` branch of the source. -/
inductive NpValue where
  | maskedConst
  | ndarray (elems : List PyNum)
  | int64 (n : Int)
  | int32 (n : Int)
  | int16 (n : Int)
  | uint8 (n : Nat)
  | float64 (bits : Nat)
  | float32 (bits : Nat)
  | boolVal (b : Bool)
  | str (s : String)
  | uint64 (n : Nat)
deriving DecidableEq, Repr

/-- A value in the JSON document the service returns.  `raw` is the
`else: d[key] = value` branch of the source: the storage value untouched. -/
inductive JsonValue where
  | null
  | list (elems : List PyNum)
  | intVal (n : Int)
  | floatVal (bits : Nat)
  | boolVal (b : Bool)
  | raw (v : NpValue)
deriving DecidableEq, Repr

/-- The `isinstance` cascade shared by `row2dict` (main.py lines 38-51) and
`rec2dict` (lines 58-71): masked → None, ndarray → tolist, the listed
int/float scalar types → plain int/float, bool → bool, else pass through. -/
def npValueToJson : NpValue → JsonValue
  | .maskedConst => .null
  | .ndarray xs => .list xs
  | .int64 n => .intVal n
  | .int32 n => .intVal n
  | .int16 n => .intVal n
  | .uint8 n => .intVal (n : Int)
  | .float64 b => .floatVal b
  | .float32 b => .floatVal b
  | .boolVal b => .boolVal b
  | v => .raw v

/-- Scalar numeric numpy kinds (whether or not the source's cascade handles
them). -/
def NpValue.isScalarNumeric : NpValue → Bool
  | .int64 _ => true
  | .int32 _ => true
  | .int16 _ => true
  | .uint8 _ => true
  | .uint64 _ => true
  | .float64 _ => true
  | .float32 _ => true
  | _ => false

/-- Scalar kinds the source's `isinstance` cascade actually converts. -/
def NpValue.isHandledScalar : NpValue → Bool
  | .int64 _ => true
  | .int32 _ => true
  | .int16 _ => true
  | .uint8 _ => true
  | .float64 _ => true
  | .float32 _ => true
  | .boolVal _ => true
  | _ => false

/-- Plain JSON scalar (python int / float / bool). -/
def JsonValue.isPlainScalar : JsonValue → Bool
  | .intVal _ => true
  | .floatVal _ => true
  | .boolVal _ => true
  | _ => false

/-- `row2dict` (main.py lines 35-52): convert an astropy table row to a
dictionary, applying the cascade to every field. -/
def row2dict (entries : List (String × NpValue)) : List (String × JsonValue) :=
  entries.map fun kv => (kv.1, npValueToJson kv.2)

/-- Python exception kinds relevant to the handlers.  The handlers catch
`KeyError` first (→ 404) and every other exception second (→ 500). -/
inductive PyError where
  | keyError (msg : String)
  | indexError (msg : String)
  | fileNotFoundError (msg : String)
  | otherError (msg : String)
deriving DecidableEq, Repr

/-- `str(e)` of the exception, as embedded into HTTP details. -/
def PyError.message : PyError → String
  | .keyError m => m
  | .indexError m => m
  | .fileNotFoundError m => m
  | .otherError m => m

/-- One row of the `zall-pix-fuji` catalog table.  `targetid`, `survey`,
`program`, `healpix` are the typed projections the handlers read
(`r['SURVEY']` etc.); `entries` is the full key-value view iterated by
`row2dict` (`row.keys()`). -/
structure CatalogRow where
  targetid : Int
  survey : String
  program : String
  healpix : Nat
  entries : List (String × NpValue)
deriving DecidableEq, Repr

/-- One FITS extension: a 1-D image (wavelength grids), a 2-D image
(per-row flux/ivar/mask arrays) or a binary table (FIBERMAP, SCORES). -/
inductive FitsExt where
  | image1D (data : List Int)
  | image2D (rows : List (List Int))
  | bintable (cols : List (String × List NpValue))
deriving DecidableEq, Repr

/-- A FITS file: named extensions. -/
structure FitsFile where
  exts : List (String × FitsExt)
deriving DecidableEq, Repr

/-- The state the handlers read: the in-memory catalog (`payload["zall"]`)
and the partition files on disk. -/
structure ServerState where
  zall : List CatalogRow
  fs : List (String × FitsFile)
deriving DecidableEq, Repr

/-- `zall.loc[targetid]` on the TARGETID-indexed table: the row keyed by the
identifier, `KeyError` if absent (identifiers are unique by catalog
invariant, so the first match is the row). -/
def zallLoc (zall : List CatalogRow) (targetid : Int) : Except PyError CatalogRow :=
  match zall.find? (fun r => r.targetid == targetid) with
  | some r => .ok r
  | none => .error (.keyError (toString targetid))

/-- Partition Resolver (main.py lines 84-88 and 139-143, identical code):
`pix = int(pixnum / 100)` then the fixed f-string template. -/
def coaddFilePath (survey program : String) (pixnum : Nat) : String :=
  let pix := pixnum / 100
  s!"/data/desi/healpix/{survey}/{program}/{pix}/{pixnum}/coadd-{survey}-{program}-{pixnum}.fits"

/-- Look a path up in the file system. -/
def fsLookup (fs : List (String × FitsFile)) (path : String) : Option FitsFile :=
  (fs.find? (fun p => p.1 == path)).map (·.2)

/-- Look an extension up by name inside an open FITS file. -/
def extLookup (f : FitsFile) (name : String) : Option FitsExt :=
  (f.exts.find? (fun p => p.1 == name)).map (·.2)

/-- Modelled message of astropy's missing-extension `KeyError`. -/
def extMissingMsg (name : String) : String :=
  s!"Extension {name} not found."

/-- Modelled message of a missing-file `FileNotFoundError`. -/
def fileMissingMsg (path : String) : String :=
  s!"No such file or directory: {path}"

/-- `fits.getdata(path, name)`: `FileNotFoundError` if the file is absent,
`KeyError` if the named extension is absent, otherwise its data. -/
def fitsGetdata (fs : List (String × FitsFile)) (path name : String) :
    Except PyError FitsExt :=
  match fsLookup fs path with
  | none => .error (.fileNotFoundError (fileMissingMsg path))
  | some f =>
    match extLookup f name with
    | none => .error (.keyError (extMissingMsg name))
    | some e => .ok e

/-- `fits.open(path)`: the HDU list, `FileNotFoundError` if absent. -/
def fitsOpen (fs : List (String × FitsFile)) (path : String) :
    Except PyError FitsFile :=
  match fsLookup fs path with
  | none => .error (.fileNotFoundError (fileMissingMsg path))
  | some f => .ok f

/-- `hdul[name]`: `KeyError` if no extension has that name. -/
def hdulGet (f : FitsFile) (name : String) : Except PyError FitsExt :=
  match extLookup f name with
  | none => .error (.keyError (extMissingMsg name))
  | some e => .ok e

/-- `rec[colname]` on a record array: `KeyError` if the field is absent, a
`TypeError`-like failure if the extension is not a table at all. -/
def recColumn (ext : FitsExt) (name : String) : Except PyError (List NpValue) :=
  match ext with
  | .bintable cols =>
    match (cols.find? (fun p => p.1 == name)).map (·.2) with
    | some vs => .ok vs
    | none => .error (.keyError name)
  | _ => .error (.otherError "field access on non-record data")

/-- Elementwise `cell == targetid` of numpy: integer kinds compare by value,
non-numeric cells compare unequal. -/
def npEqInt (v : NpValue) (t : Int) : Bool :=
  match v with
  | .int64 n => n == t
  | .int32 n => n == t
  | .int16 n => n == t
  | .uint8 n => (n : Int) == t
  | .uint64 n => (n : Int) == t
  | _ => false

/-- Index of the first cell equal to the target, if any. -/
def firstMatchIdx (t : Int) : List NpValue → Option Nat
  | [] => none
  | v :: vs => if npEqInt v t then some 0 else (firstMatchIdx t vs).map (· + 1)

/-- Modelled message of numpy's empty-`argwhere` indexing failure. -/
def argwhereEmptyMsg : String :=
  "index 0 is out of bounds for axis 0 with size 0"

/-- `np.argwhere(col == targetid)[0][0]` (main.py lines 92 and 147): the
least index whose cell equals the target; `IndexError` when there is none. -/
def argwhereFirst (cells : List NpValue) (t : Int) : Except PyError Nat :=
  match firstMatchIdx t cells with
  | some i => .ok i
  | none => .error (.indexError argwhereEmptyMsg)

/-- `hdul[name].data.tolist()` on a 1-D image extension (wavelength grids). -/
def hdulData1D (f : FitsFile) (name : String) : Except PyError (List Int) := do
  let ext ← hdulGet f name
  match ext with
  | .image1D d => pure d
  | _ => .error (.otherError "data is not a one-dimensional array")

/-- `hdul[name].section[ispec].tolist()` on a 2-D image extension: the
single requested row, `IndexError` when the offset is out of range. -/
def hdulSection (f : FitsFile) (name : String) (ispec : Nat) :
    Except PyError (List Int) := do
  let ext ← hdulGet f name
  match ext with
  | .image2D rows =>
    match rows.get? ispec with
    | some row => pure row
    | none => .error (.indexError "index out of bounds for axis 0")
  | _ => .error (.otherError "section access on non-image data")

/-- Column-by-column body of `rec2dict` (main.py lines 58-72): for each
named column take `rec[key][ispec]` (IndexError when out of range) and
apply the normalisation cascade. -/
def rec2dictCols (cols : List (String × List NpValue)) (ispec : Nat) :
    Except PyError (List (String × JsonValue)) :=
  match cols with
  | [] => .ok []
  | (k, vs) :: rest =>
    match vs.get? ispec with
    | none => .error (.indexError "index out of range for record array")
    | some v =>
      match rec2dictCols rest ispec with
      | .ok d => .ok ((k, npValueToJson v) :: d)
      | .error e => .error e

/-- `rec2dict(rec, ispec)` (main.py lines 55-72) applied to an extension's
data: requires record-array data, then converts each field at `ispec`. -/
def rec2dict (ext : FitsExt) (ispec : Nat) :
    Except PyError (List (String × JsonValue)) :=
  match ext with
  | .bintable cols => rec2dictCols cols ispec
  | _ => .error (.otherError "dtype has no field names")

/-- The `data` dictionary of the full-document response: three arms, each
with a shared wavelength grid and per-row flux/ivar/mask sections. -/
structure SpectraData where
  b_wavelength : List Int
  b_flux : List Int
  b_ivar : List Int
  b_mask : List Int
  r_wavelength : List Int
  r_flux : List Int
  r_ivar : List Int
  r_mask : List Int
  z_wavelength : List Int
  z_flux : List Int
  z_ivar : List Int
  z_mask : List Int
deriving DecidableEq, Repr

/-- The structured document of `/coadd/{targetid}`:
`dict(zall_pix_info=info, scores=scores, data=data)` (main.py line 119). -/
structure Document where
  zall_pix_info : List (String × JsonValue)
  scores : List (String × JsonValue)
  data : SpectraData
deriving DecidableEq, Repr

/-- The four-column table behind the CSV response of
`/coadd-csv/{targetid}` (serialisation to text is outside the core). -/
structure CsvTable where
  wavelength : List Int
  flux : List Int
  ivar : List Int
  mask : List Int
deriving DecidableEq, Repr

/-- An HTTP outcome: a successful payload, or an `HTTPException` with a
status code and a detail string. -/
inductive Outcome (α : Type) where
  | ok (payload : α)
  | httpError (status : Nat) (detail : String)
deriving DecidableEq, Repr

/-- The `except` clauses of `get_coadd_spectrum_json` (main.py lines
123-127): `KeyError` → 404 with the fixed message prefix, anything else →
500 "Internal Server Error". -/
def dispatchJson : Except PyError Document → Outcome Document
  | .ok d => .ok d
  | .error (.keyError m) =>
    .httpError 404 ("TARGETID not found in `zall-pix-fuji` table. " ++ m)
  | .error e => .httpError 500 ("Internal Server Error: " ++ e.message)

/-- The `except` clauses of `get_coadd_spectrum_csv` (main.py lines
171-175): `KeyError` → 404 with the bare message, anything else → 500. -/
def dispatchCsv : Except PyError CsvTable → Outcome CsvTable
  | .ok t => .ok t
  | .error (.keyError m) => .httpError 404 m
  | .error e => .httpError 500 ("Internal Server Error: " ++ e.message)

/-- The `try` block of `get_coadd_spectrum_json` (main.py lines 80-121). -/
def getCoaddSpectrumJsonBody (st : ServerState) (targetid : Int) :
    Except PyError Document := do
  let r ← zallLoc st.zall targetid
  let file_coadd := coaddFilePath r.survey r.program r.healpix
  let fibermap ← fitsGetdata st.fs file_coadd "FIBERMAP"
  let tidcol ← recColumn fibermap "TARGETID"
  let ispec ← argwhereFirst tidcol targetid
  let info := row2dict r.entries
  let scoresExt ← fitsGetdata st.fs file_coadd "SCORES"
  let scores ← rec2dict scoresExt ispec
  let hdul ← fitsOpen st.fs file_coadd
  let b_wavelength ← hdulData1D hdul "B_WAVELENGTH"
  let b_flux ← hdulSection hdul "B_FLUX" ispec
  let b_ivar ← hdulSection hdul "B_IVAR" ispec
  let b_mask ← hdulSection hdul "B_MASK" ispec
  let r_wavelength ← hdulData1D hdul "R_WAVELENGTH"
  let r_flux ← hdulSection hdul "R_FLUX" ispec
  let r_ivar ← hdulSection hdul "R_IVAR" ispec
  let r_mask ← hdulSection hdul "R_MASK" ispec
  let z_wavelength ← hdulData1D hdul "Z_WAVELENGTH"
  let z_flux ← hdulSection hdul "Z_FLUX" ispec
  let z_ivar ← hdulSection hdul "Z_IVAR" ispec
  let z_mask ← hdulSection hdul "Z_MASK" ispec
  pure
    { zall_pix_info := info
      scores := scores
      data :=
        { b_wavelength := b_wavelength, b_flux := b_flux
          b_ivar := b_ivar, b_mask := b_mask
          r_wavelength := r_wavelength, r_flux := r_flux
          r_ivar := r_ivar, r_mask := r_mask
          z_wavelength := z_wavelength, z_flux := z_flux
          z_ivar := z_ivar, z_mask := z_mask } }

/-- `GET /coadd/{targetid}` (main.py lines 75-127).  The query parameter
`q` is accepted and unused, as in the source. -/
def getCoaddSpectrumJson (st : ServerState) (targetid : Int)
    (q : Option String) : Outcome Document :=
  dispatchJson (getCoaddSpectrumJsonBody st targetid)

/-- The `try` block of `get_coadd_spectrum_csv` (main.py lines 135-169);
`filterQ` is the raw query parameter, defaulted to "R" when absent. -/
def getCoaddSpectrumCsvBody (st : ServerState) (targetid : Int)
    (filterQ : Option String) : Except PyError CsvTable := do
  let filterVal := filterQ.getD "R"
  let r ← zallLoc st.zall targetid
  let file_coadd := coaddFilePath r.survey r.program r.healpix
  let fibermap ← fitsGetdata st.fs file_coadd "FIBERMAP"
  let tidcol ← recColumn fibermap "TARGETID"
  let ispec ← argwhereFirst tidcol targetid
  let hdul ← fitsOpen st.fs file_coadd
  let wavelength ← hdulData1D hdul (filterVal ++ "_WAVELENGTH")
  let flux ← hdulSection hdul (filterVal ++ "_FLUX") ispec
  let ivar ← hdulSection hdul (filterVal ++ "_IVAR") ispec
  let mask ← hdulSection hdul (filterVal ++ "_MASK") ispec
  pure { wavelength := wavelength, flux := flux, ivar := ivar, mask := mask }

/-- `GET /coadd-csv/{targetid}?filter=<arm>` (main.py lines 130-175). -/
def getCoaddSpectrumCsv (st : ServerState) (targetid : Int)
    (filterQ : Option String) : Outcome CsvTable :=
  dispatchCsv (getCoaddSpectrumCsvBody st targetid filterQ)

/-- The status code of an outcome, `none` on success. -/
def Outcome.statusOf {α : Type} : Outcome α → Option Nat
  | .ok _ => none
  | .httpError s _ => some s

/-! ### Sample data for concrete instantiations

The identifier, survey, program and healpix values follow the concrete
scenario of the specification (§8): identifier 39633345008634311 with
survey "main", program "dark", healpix 9103. -/

def sampleTid : Int := 39633345008634311

def sampleRow : CatalogRow :=
  { targetid := 39633345008634311
    survey := "main"
    program := "dark"
    healpix := 9103
    entries :=
      [("TARGETID", NpValue.int64 39633345008634311),
       ("SURVEY", NpValue.str "main"),
       ("PROGRAM", NpValue.str "dark"),
       ("HEALPIX", NpValue.int64 9103),
       ("Z", NpValue.float64 4602891378046628709)] }

def samplePath : String := coaddFilePath "main" "dark" 9103

def goodFibermap : FitsExt :=
  FitsExt.bintable
    [("TARGETID", [NpValue.int64 616094, NpValue.int64 39633345008634311]),
     ("FIBER", [NpValue.int32 17, NpValue.int32 23])]

def goodScores : FitsExt :=
  FitsExt.bintable [("TSNR2_LRG", [NpValue.float64 100, NpValue.float64 200])]

def armData : List (String × FitsExt) :=
  [("B_WAVELENGTH", FitsExt.image1D [3600, 3601]),
   ("B_FLUX", FitsExt.image2D [[10, 11], [12, 13]]),
   ("B_IVAR", FitsExt.image2D [[1, 1], [1, 1]]),
   ("B_MASK", FitsExt.image2D [[0, 0], [0, 0]]),
   ("R_WAVELENGTH", FitsExt.image1D [5800, 5801]),
   ("R_FLUX", FitsExt.image2D [[20, 21], [22, 23]]),
   ("R_IVAR", FitsExt.image2D [[1, 1], [1, 1]]),
   ("R_MASK", FitsExt.image2D [[0, 0], [0, 0]]),
   ("Z_WAVELENGTH", FitsExt.image1D [7800, 7801]),
   ("Z_FLUX", FitsExt.image2D [[30, 31], [32, 33]]),
   ("Z_IVAR", FitsExt.image2D [[1, 1], [1, 1]]),
   ("Z_MASK", FitsExt.image2D [[0, 0], [0, 0]])]

def fullFile : FitsFile := ⟨("FIBERMAP", goodFibermap) :: ("SCORES", goodScores) :: armData⟩

def noScoresFile : FitsFile := ⟨("FIBERMAP", goodFibermap) :: armData⟩

def rowAbsentFile : FitsFile :=
  ⟨[("FIBERMAP", FitsExt.bintable [("TARGETID", [NpValue.int64 616094])])]⟩

def emptyFile : FitsFile := ⟨[]⟩

def emptyState : ServerState := ⟨[], []⟩

def stFull : ServerState := ⟨[sampleRow], [(samplePath, fullFile)]⟩

def stNoScores : ServerState := ⟨[sampleRow], [(samplePath, noScoresFile)]⟩

def stRowAbsent : ServerState := ⟨[sampleRow], [(samplePath, rowAbsentFile)]⟩

def stNoFibermap : ServerState := ⟨[sampleRow], [(samplePath, emptyFile)]⟩

/-! ### Helper lemmas -/

theorem bindOk {α β : Type} (a : α) (f : α → Except PyError β) :
    Bind.bind (Except.ok a) f = f a := rfl

theorem bindErr {α β : Type} (e : PyError) (f : α → Except PyError β) :
    Bind.bind (Except.error e : Except PyError α) f = Except.error e := rfl

theorem zallLoc_absent (zall : List CatalogRow) (t : Int)
    (h : ∀ r ∈ zall, r.targetid ≠ t) :
    zallLoc zall t = Except.error (PyError.keyError (toString t)) := by
  have hf : zall.find? (fun r => r.targetid == t) = none :=
    List.find?_eq_none.mpr (fun r hr => by simpa using h r hr)
  unfold zallLoc
  rw [hf]

theorem firstMatchIdx_none (t : Int) (xs : List NpValue)
    (h : ∀ v ∈ xs, npEqInt v t = false) : firstMatchIdx t xs = none := by
  induction xs with
  | nil => rfl
  | cons v vs ih =>
    unfold firstMatchIdx
    rw [h v (by simp)]
    simp only [Bool.false_eq_true, if_false, Option.map_eq_none']
    exact ih fun w hw => h w (by simp [hw])

theorem firstMatchIdx_isSome (t : Int) :
    ∀ xs : List NpValue, (∃ v ∈ xs, npEqInt v t = true) →
      ∃ i, firstMatchIdx t xs = some i := by
  intro xs
  induction xs with
  | nil => rintro ⟨v, hv, -⟩; cases hv
  | cons v vs ih =>
    rintro ⟨w, hw, hwt⟩
    cases hv : npEqInt v t with
    | true => exact ⟨0, by simp [firstMatchIdx, hv]⟩
    | false =>
      rcases List.mem_cons.mp hw with rfl | hw2
      · rw [hv] at hwt; cases hwt
      · obtain ⟨i, hi⟩ := ih ⟨w, hw2, hwt⟩
        exact ⟨i + 1, by simp [firstMatchIdx, hv, hi]⟩

theorem firstMatchIdx_least (t : Int) :
    ∀ (xs : List NpValue) (i : Nat), firstMatchIdx t xs = some i →
      (∃ v, xs.get? i = some v ∧ npEqInt v t = true) ∧
      (∀ j, j < i → ∀ w, xs.get? j = some w → npEqInt w t = false) := by
  intro xs
  induction xs with
  | nil => intro i h; simp [firstMatchIdx] at h
  | cons v vs ih =>
    intro i h
    cases hv : npEqInt v t with
    | true =>
      simp only [firstMatchIdx, hv, if_true, Option.some.injEq] at h
      subst h
      exact ⟨⟨v, rfl, hv⟩, fun j hj => absurd hj (Nat.not_lt_zero j)⟩
    | false =>
      simp only [firstMatchIdx, hv, Bool.false_eq_true, if_false,
        Option.map_eq_some'] at h
      obtain ⟨i0, hi0, rfl⟩ := h
      obtain ⟨⟨w, hw, hwt⟩, hleast⟩ := ih i0 hi0
      refine ⟨⟨w, by simpa using hw, hwt⟩, ?_⟩
      intro j hj u hu
      cases j with
      | zero =>
        simp only [List.get?_cons_zero, Option.some.injEq] at hu
        subst hu
        exact hv
      | succ j0 =>
        exact hleast j0 (by omega) u (by simpa using hu)

/-! ### Claim theorems -/

/-- C1: For every catalog row with non-negative integer healpix and string
fields survey and program, the partition resolver is a pure, deterministic
function yielding
`{root}/{survey}/{program}/{bucket}/{healpix}/coadd-{survey}-{program}-{healpix}.fits`
with `bucket = floor(healpix / 100)` (natural-number division is floor
division); e.g. healpix = 12345 gives bucket 123.  `coaddFilePath` is a
total function of exactly these three fields, so it performs no I/O and no
existence check. -/
theorem coaddFilePath_template (survey program : String) (healpix : Nat) :
    coaddFilePath survey program healpix =
      "/data/desi/healpix/" ++ survey ++ "/" ++ program ++ "/" ++
        toString (healpix / 100) ++ "/" ++ toString healpix ++
        "/coadd-" ++ survey ++ "-" ++ program ++ "-" ++ toString healpix ++
        ".fits" ∧
    coaddFilePath "main" "dark" 12345 =
      "/data/desi/healpix/main/dark/123/12345/coadd-main-dark-12345.fits" := by
  constructor
  · rfl
  · rfl

/-- C2: for every identifier absent from the catalog index, both entry
points return the 404 "not found" outcome (with the `KeyError` detail), and
neither ever returns the generic 500 internal-error outcome. -/
theorem absent_identifier_both_404 (st : ServerState) (targetid : Int)
    (q filterQ : Option String)
    (h : ∀ r ∈ st.zall, r.targetid ≠ targetid) :
    getCoaddSpectrumJson st targetid q =
      Outcome.httpError 404
        ("TARGETID not found in `zall-pix-fuji` table. " ++ toString targetid) ∧
    getCoaddSpectrumCsv st targetid filterQ =
      Outcome.httpError 404 (toString targetid) ∧
    Outcome.statusOf (getCoaddSpectrumJson st targetid q) ≠ some 500 ∧
    Outcome.statusOf (getCoaddSpectrumCsv st targetid filterQ) ≠ some 500 := by
  have hz := zallLoc_absent st.zall targetid h
  have hj : getCoaddSpectrumJson st targetid q =
      Outcome.httpError 404
        ("TARGETID not found in `zall-pix-fuji` table. " ++ toString targetid) := by
    simp only [getCoaddSpectrumJson, getCoaddSpectrumJsonBody, hz, bindErr,
      dispatchJson]
  have hc : getCoaddSpectrumCsv st targetid filterQ =
      Outcome.httpError 404 (toString targetid) := by
    simp only [getCoaddSpectrumCsv, getCoaddSpectrumCsvBody, hz, bindErr,
      dispatchCsv]
  refine ⟨hj, hc, ?_, ?_⟩
  · rw [hj]; simp [Outcome.statusOf]
  · rw [hc]; simp [Outcome.statusOf]

/-- C2 witness: the identifier 5 is absent from the empty catalog, and both
entry points report 404. -/
theorem absent_identifier_both_404_witness :
    getCoaddSpectrumJson emptyState 5 none =
      Outcome.httpError 404
        ("TARGETID not found in `zall-pix-fuji` table. " ++ toString (5 : Int)) ∧
    getCoaddSpectrumCsv emptyState 5 none =
      Outcome.httpError 404 (toString (5 : Int)) ∧
    Outcome.statusOf (getCoaddSpectrumJson emptyState 5 none) ≠ some 500 ∧
    Outcome.statusOf (getCoaddSpectrumCsv emptyState 5 none) ≠ some 500 :=
  absent_identifier_both_404 emptyState 5 none none
    (by intro r hr; simp [emptyState] at hr)

/-- C7: for every identifier and state, calling the tabular export with no
arm argument produces exactly the same result as calling it with arm "R",
because the handler's `filter` parameter defaults to "R". -/
theorem csv_default_arm_is_R (st : ServerState) (targetid : Int) :
    getCoaddSpectrumCsv st targetid none =
      getCoaddSpectrumCsv st targetid (some "R") := rfl

/-- C9: the full-document endpoint is a deterministic function of the
identifier and the data contents: two calls against equal catalog and
partition-file contents (and arbitrary values of the unused query
parameter) return identical structured output. -/
theorem full_spectrum_deterministic (s1 s2 : ServerState) (targetid : Int)
    (q1 q2 : Option String) (hz : s1.zall = s2.zall) (hf : s1.fs = s2.fs) :
    getCoaddSpectrumJson s1 targetid q1 = getCoaddSpectrumJson s2 targetid q2 := by
  obtain ⟨z1, f1⟩ := s1
  obtain ⟨z2, f2⟩ := s2
  simp only at hz hf
  subst hz
  subst hf
  rfl

/-- C9 witness: two calls on the same concrete state agree. -/
theorem full_spectrum_deterministic_witness :
    getCoaddSpectrumJson stFull 39633345008634311 none =
      getCoaddSpectrumJson stFull 39633345008634311 (some "unused") :=
  full_spectrum_deterministic stFull stFull 39633345008634311 none
    (some "unused") rfl rfl

/-- C3: for an identifier present in the catalog whose partition file
exists but whose FIBERMAP TARGETID column does not contain it, retrieval
fails with the row-not-found outcome (the empty-`argwhere` IndexError,
surfaced as status 500), which is distinct from the 404 outcome produced
for an identifier absent from the catalog, and is never a silently
defaulted success. -/
theorem row_absent_distinct_outcome (st : ServerState) (targetid : Int)
    (q : Option String) (r : CatalogRow) (f : FitsFile) (fmExt : FitsExt)
    (tids : List NpValue)
    (hloc : zallLoc st.zall targetid = Except.ok r)
    (hfile : fsLookup st.fs (coaddFilePath r.survey r.program r.healpix) = some f)
    (hfm : extLookup f "FIBERMAP" = some fmExt)
    (hcol : recColumn fmExt "TARGETID" = Except.ok tids)
    (habsent : ∀ v ∈ tids, npEqInt v targetid = false) :
    getCoaddSpectrumJson st targetid q =
      Outcome.httpError 500 ("Internal Server Error: " ++ argwhereEmptyMsg) ∧
    Outcome.statusOf (getCoaddSpectrumJson st targetid q) ≠ some 404 ∧
    Outcome.statusOf (getCoaddSpectrumJson st targetid q) ≠ none := by
  have hz : firstMatchIdx targetid tids = none :=
    firstMatchIdx_none targetid tids habsent
  have hmain : getCoaddSpectrumJson st targetid q =
      Outcome.httpError 500 ("Internal Server Error: " ++ argwhereEmptyMsg) := by
    simp only [getCoaddSpectrumJson, getCoaddSpectrumJsonBody, hloc, bindOk,
      fitsGetdata, hfile, hfm, bindOk, hcol, bindOk, argwhereFirst, hz,
      bindErr, dispatchJson, PyError.message]
  refine ⟨hmain, ?_, ?_⟩ <;> rw [hmain] <;> simp [Outcome.statusOf]

/-- C3 witness: the sample identifier resolves to a partition file whose
TARGETID column holds only 616094, so the call surfaces the inconsistency
as the 500 outcome, distinct from a 404 catalog miss. -/
theorem row_absent_distinct_outcome_witness :
    getCoaddSpectrumJson stRowAbsent 39633345008634311 none =
      Outcome.httpError 500 ("Internal Server Error: " ++ argwhereEmptyMsg) ∧
    Outcome.statusOf (getCoaddSpectrumJson stRowAbsent 39633345008634311 none) ≠
      some 404 ∧
    Outcome.statusOf (getCoaddSpectrumJson stRowAbsent 39633345008634311 none) ≠
      none :=
  row_absent_distinct_outcome stRowAbsent 39633345008634311 none sampleRow
    rowAbsentFile (FitsExt.bintable [("TARGETID", [NpValue.int64 616094])])
    [NpValue.int64 616094] rfl rfl rfl rfl (by decide)

/-- C4: whenever the FIBERMAP TARGETID column contains the target at least
once, the per-partition row scan `argwhereFirst` succeeds and returns the
least index whose cell equals the target; it takes only the row-identifier
column as input. -/
theorem row_scan_least_match (tids : List NpValue) (t : Int)
    (hmem : ∃ v ∈ tids, npEqInt v t = true) :
    ∃ i, argwhereFirst tids t = Except.ok i ∧
      (∃ v, tids.get? i = some v ∧ npEqInt v t = true) ∧
      (∀ j, j < i → ∀ w, tids.get? j = some w → npEqInt w t = false) := by
  obtain ⟨i, hi⟩ := firstMatchIdx_isSome t tids hmem
  obtain ⟨hfound, hleast⟩ := firstMatchIdx_least t tids i hi
  exact ⟨i, by simp [argwhereFirst, hi], hfound, hleast⟩

/-- C4 witness: in a column holding 616094 twice then the target twice, the
scan returns offset 2, the first of the two matches. -/
theorem row_scan_least_match_witness :
    ∃ i, argwhereFirst
        [NpValue.int64 616094, NpValue.int64 616094, NpValue.int64 7,
         NpValue.int64 7] 7 = Except.ok i ∧
      (∃ v, [NpValue.int64 616094, NpValue.int64 616094, NpValue.int64 7,
          NpValue.int64 7].get? i = some v ∧ npEqInt v 7 = true) ∧
      (∀ j, j < i → ∀ w, [NpValue.int64 616094, NpValue.int64 616094,
          NpValue.int64 7, NpValue.int64 7].get? j = some w →
          npEqInt w 7 = false) :=
  row_scan_least_match
    [NpValue.int64 616094, NpValue.int64 616094, NpValue.int64 7,
     NpValue.int64 7] 7 ⟨NpValue.int64 7, by decide, by decide⟩

/-- C5: `get_full_spectrum` is atomic at its interface: when the SCORES
block is missing for an otherwise valid row (identifier in the catalog,
partition file present, FIBERMAP containing the row), the call fails with
the missing-extension error instead of returning a document with a missing
or null scores section — the outcome is never a success payload. -/
theorem missing_scores_fails_not_partial (st : ServerState) (targetid : Int)
    (q : Option String) (r : CatalogRow) (f : FitsFile) (fmExt : FitsExt)
    (tids : List NpValue) (i : Nat)
    (hloc : zallLoc st.zall targetid = Except.ok r)
    (hfile : fsLookup st.fs (coaddFilePath r.survey r.program r.healpix) = some f)
    (hfm : extLookup f "FIBERMAP" = some fmExt)
    (hcol : recColumn fmExt "TARGETID" = Except.ok tids)
    (hidx : argwhereFirst tids targetid = Except.ok i)
    (hscores : extLookup f "SCORES" = none) :
    getCoaddSpectrumJson st targetid q =
      Outcome.httpError 404
        ("TARGETID not found in `zall-pix-fuji` table. " ++
          extMissingMsg "SCORES") ∧
    Outcome.statusOf (getCoaddSpectrumJson st targetid q) ≠ none := by
  have hmain : getCoaddSpectrumJson st targetid q =
      Outcome.httpError 404
        ("TARGETID not found in `zall-pix-fuji` table. " ++
          extMissingMsg "SCORES") := by
    simp only [getCoaddSpectrumJson, getCoaddSpectrumJsonBody, hloc, bindOk,
      fitsGetdata, hfile, hfm, bindOk, hcol, bindOk, hidx, bindOk, hscores,
      bindErr, dispatchJson]
  refine ⟨hmain, ?_⟩
  rw [hmain]
  simp [Outcome.statusOf]

/-- C5 witness: a partition file with FIBERMAP and all twelve spectral
arrays but no SCORES extension makes the full-document call fail rather
than answer with a partial document. -/
theorem missing_scores_fails_not_partial_witness :
    getCoaddSpectrumJson stNoScores 39633345008634311 none =
      Outcome.httpError 404
        ("TARGETID not found in `zall-pix-fuji` table. " ++
          extMissingMsg "SCORES") ∧
    Outcome.statusOf (getCoaddSpectrumJson stNoScores 39633345008634311 none) ≠
      none :=
  missing_scores_fails_not_partial stNoScores 39633345008634311 none sampleRow
    noScoresFile goodFibermap
    [NpValue.int64 616094, NpValue.int64 39633345008634311] 1 rfl rfl rfl rfl
    rfl rfl

/-- C10: in the full-document endpoint, a missing named array raised as a
key-lookup error — here the FIBERMAP extension absent from the partition
file — is caught by the same `except KeyError` handler as a catalog miss
and returned as the 404 outcome with the message "TARGETID not found in
`zall-pix-fuji` table", not as the 500 internal-error outcome. -/
theorem missing_extension_reported_as_404 (st : ServerState) (targetid : Int)
    (q : Option String) (r : CatalogRow) (f : FitsFile)
    (hloc : zallLoc st.zall targetid = Except.ok r)
    (hfile : fsLookup st.fs (coaddFilePath r.survey r.program r.healpix) = some f)
    (hfm : extLookup f "FIBERMAP" = none) :
    getCoaddSpectrumJson st targetid q =
      Outcome.httpError 404
        ("TARGETID not found in `zall-pix-fuji` table. " ++
          extMissingMsg "FIBERMAP") ∧
    Outcome.statusOf (getCoaddSpectrumJson st targetid q) ≠ some 500 := by
  have hmain : getCoaddSpectrumJson st targetid q =
      Outcome.httpError 404
        ("TARGETID not found in `zall-pix-fuji` table. " ++
          extMissingMsg "FIBERMAP") := by
    simp only [getCoaddSpectrumJson, getCoaddSpectrumJsonBody, hloc, bindOk,
      fitsGetdata, hfile, hfm, bindErr, dispatchJson]
  refine ⟨hmain, ?_⟩
  rw [hmain]
  simp [Outcome.statusOf]

/-- C10 witness: a malformed partition file with no extensions at all is
reported for the sample identifier as the identifier-unknown 404 outcome. -/
theorem missing_extension_reported_as_404_witness :
    getCoaddSpectrumJson stNoFibermap 39633345008634311 none =
      Outcome.httpError 404
        ("TARGETID not found in `zall-pix-fuji` table. " ++
          extMissingMsg "FIBERMAP") ∧
    Outcome.statusOf (getCoaddSpectrumJson stNoFibermap 39633345008634311 none) ≠
      some 500 :=
  missing_extension_reported_as_404 stNoFibermap 39633345008634311 none
    sampleRow emptyFile rfl rfl rfl

/-- C6 counterexample: for the sample identifier, present in the catalog
with a fully readable partition file, requesting arm "X" does not produce a
bad-request-class (status 400) outcome: the handler's HDU lookup raises a
`KeyError`, dispatched as status 404 — the same status code the endpoint
uses for an unknown identifier. -/
theorem invalid_arm_not_bad_request_counterexample :
    getCoaddSpectrumCsv stFull 39633345008634311 (some "X") =
      Outcome.httpError 404 (extMissingMsg "X_WAVELENGTH") ∧
    ¬ ∃ d, getCoaddSpectrumCsv stFull 39633345008634311 (some "X") =
      Outcome.httpError 400 d := by
  refine ⟨rfl, ?_⟩
  rintro ⟨d, hd⟩
  have h2 : (Outcome.httpError 400 d : Outcome CsvTable) =
      Outcome.httpError 404 (extMissingMsg "X_WAVELENGTH") :=
    hd.symm.trans rfl
  simp at h2

/-- C6 (amended): for every identifier present in the catalog with a
readable partition file, calling the tabular export with an arm value
naming an arm not present in the file fails with the key-error outcome —
status 404 whose detail names the missing extension — and not with the
generic 500 internal-error outcome; the status, however, is the not-found
code, not a distinct bad-request code. -/
theorem invalid_arm_yields_404_key_error (st : ServerState) (targetid : Int)
    (arm : String) (r : CatalogRow) (f : FitsFile) (fmExt : FitsExt)
    (tids : List NpValue) (i : Nat)
    (hloc : zallLoc st.zall targetid = Except.ok r)
    (hfile : fsLookup st.fs (coaddFilePath r.survey r.program r.healpix) = some f)
    (hfm : extLookup f "FIBERMAP" = some fmExt)
    (hcol : recColumn fmExt "TARGETID" = Except.ok tids)
    (hidx : argwhereFirst tids targetid = Except.ok i)
    (hwl : extLookup f (arm ++ "_WAVELENGTH") = none) :
    getCoaddSpectrumCsv st targetid (some arm) =
      Outcome.httpError 404 (extMissingMsg (arm ++ "_WAVELENGTH")) ∧
    Outcome.statusOf (getCoaddSpectrumCsv st targetid (some arm)) ≠
      some 500 := by
  have hmain : getCoaddSpectrumCsv st targetid (some arm) =
      Outcome.httpError 404 (extMissingMsg (arm ++ "_WAVELENGTH")) := by
    simp only [getCoaddSpectrumCsv, getCoaddSpectrumCsvBody, Option.getD_some,
      hloc, bindOk, fitsGetdata, hfile, hfm, bindOk, hcol, bindOk, hidx,
      bindOk, fitsOpen, hdulData1D, hdulGet, hwl, bindErr, dispatchCsv]
  refine ⟨hmain, ?_⟩
  rw [hmain]
  simp [Outcome.statusOf]

/-- C6 witness: arm "X" against the fully populated sample partition file
yields the 404 key-error outcome, not the generic 500. -/
theorem invalid_arm_yields_404_key_error_witness :
    getCoaddSpectrumCsv stFull 39633345008634311 (some "X") =
      Outcome.httpError 404 (extMissingMsg ("X" ++ "_WAVELENGTH")) ∧
    Outcome.statusOf (getCoaddSpectrumCsv stFull 39633345008634311 (some "X")) ≠
      some 500 :=
  invalid_arm_yields_404_key_error stFull 39633345008634311 "X" sampleRow
    fullFile goodFibermap
    [NpValue.int64 616094, NpValue.int64 39633345008634311] 1 rfl rfl rfl rfl
    rfl rfl

/-- C8 counterexample: field normalization does not map every scalar
numeric value to a plain scalar.  A `uint64` cell — a numpy scalar kind the
`isinstance` cascade does not test for — falls through the final `else`
branch and appears in the output as the raw storage value. -/
theorem normalization_uint64_leaks_counterexample :
    NpValue.isScalarNumeric (NpValue.uint64 7) = true ∧
    row2dict [("COL", NpValue.uint64 7)] =
      [("COL", JsonValue.raw (NpValue.uint64 7))] ∧
    JsonValue.isPlainScalar (npValueToJson (NpValue.uint64 7)) = false ∧
    ¬ ∀ v : NpValue, NpValue.isScalarNumeric v = true →
      JsonValue.isPlainScalar (npValueToJson v) = true := by
  refine ⟨rfl, rfl, rfl, fun h => ?_⟩
  have := h (NpValue.uint64 7) rfl
  simp [npValueToJson, JsonValue.isPlainScalar] at this

/-- C8 (amended): normalization maps each missing/masked value to the
explicit no-value sentinel, each array-valued field to an ordered sequence
of numbers, and each scalar field of the kinds the cascade handles
(int64/int32/int16/uint8, float64/float32, bool) to a plain scalar; scalar
fields of other numpy kinds (e.g. uint64) pass through unchanged as raw
storage values. -/
theorem normalization_on_handled_kinds (v : NpValue) :
    (v = NpValue.maskedConst → npValueToJson v = JsonValue.null) ∧
    (∀ xs, v = NpValue.ndarray xs → npValueToJson v = JsonValue.list xs) ∧
    (NpValue.isHandledScalar v = true →
      JsonValue.isPlainScalar (npValueToJson v) = true) ∧
    (∀ n, v = NpValue.uint64 n → npValueToJson v = JsonValue.raw v) ∧
    (∀ k, row2dict [(k, v)] = [(k, npValueToJson v)]) := by
  refine ⟨?_, ?_, ?_, ?_, fun k => rfl⟩
  · rintro rfl; rfl
  · rintro xs rfl; rfl
  · cases v <;> simp [NpValue.isHandledScalar, npValueToJson,
      JsonValue.isPlainScalar]
  · rintro n rfl; rfl

/-- C8 witness: a masked cell becomes the null sentinel, an array cell
becomes its list of numbers, an int64 cell becomes a plain scalar, and a
uint64 cell leaks through raw. -/
theorem normalization_on_handled_kinds_witness :
    npValueToJson NpValue.maskedConst = JsonValue.null ∧
    npValueToJson (NpValue.ndarray [PyNum.int 3]) =
      JsonValue.list [PyNum.int 3] ∧
    JsonValue.isPlainScalar (npValueToJson (NpValue.int64 5)) = true ∧
    npValueToJson (NpValue.uint64 7) = JsonValue.raw (NpValue.uint64 7) :=
  ⟨(normalization_on_handled_kinds NpValue.maskedConst).1 rfl,
   (normalization_on_handled_kinds (NpValue.ndarray [PyNum.int 3])).2.1
     [PyNum.int 3] rfl,
   (normalization_on_handled_kinds (NpValue.int64 5)).2.2.1 rfl,
   (normalization_on_handled_kinds (NpValue.uint64 7)).2.2.2.1 7 rfl⟩

end DesiApp
